import Mathlib

/-!
Verification development for the restore-purchase queue service in `src/app.py`.

The Python source is a concatenation of two near-identical variants of the same
Flask application.  The queue manager (`QueueManager`), the retry wrapper
(`refresh_api_token`) and the restore pipeline (`_process_request`) come from
the first variant (lines 43-179); the HTTP handler `restore_purchase`
(lines 268-301) comes from the second variant, whose richer `get_status`
(returning `total_queue` and `estimated_time`) is not present in the source and
is therefore modelled from the spec where noted.

External collaborators (the Locket API client, the credential provider and the
Telegram notification transport) are modelled as an environment that yields the
outcome of each attempted call: a successful payload or a raised exception.
-/

/-- Lifecycle status of a client request, matching the string values
`"waiting"`, `"processing"`, `"completed"`, `"error"` used in `app.py`. -/
inductive Status where
  | waiting
  | processing
  | completed
  | error
deriving DecidableEq

/-- One record of `QueueManager.client_requests` (src/app.py lines 105-109):
the fields stored by `add_to_queue`. -/
structure Request where
  username : String
  ip : String
  status : Status
deriving DecidableEq

/-- Opaque credential handle: one `LocketAPI(token)` value.  Refreshing swaps
the handle for a fresh one. -/
structure ApiToken where
  val : Nat
deriving DecidableEq

/-- Outcome of one attempt of an external call: a payload, or a raised
exception carrying the exception message.  `isAuth` classifies whether the
failure has an authentication/session-failure signature; the Python code
never inspects this (it catches bare `Exception`). -/
inductive CallOutcome (α : Type) where
  | ok (v : α)
  | exn (isAuth : Bool) (msg : String)
deriving DecidableEq

/-- True when the outcome is a successful payload. -/
def CallOutcome.isOk {α : Type} : CallOutcome α → Bool
  | .ok _ => true
  | .exn _ _ => false

/-- True when the outcome is a raised exception. -/
def CallOutcome.isExn {α : Type} : CallOutcome α → Bool
  | .ok _ => false
  | .exn _ _ => true

/-- Payload of a successful `api.getUserByUsername` call.
`uidField = none` models a response missing the
`["result"]["data"]["uid"]` path, whose extraction raises `KeyError`
(src/app.py lines 152-153). -/
structure AccountPayload where
  uidField : Option String
deriving DecidableEq

/-- Payload of a successful `api.restorePurchase` call.  `goldProductId`
models `restore.get("subscriber", {}).get("entitlements", {}).get("Gold",
{}).get("product_identifier")` (src/app.py lines 161-164): `none` when any
of those keys is missing. -/
structure RestorePayload where
  goldProductId : Option String
deriving DecidableEq

/-- Ghost trace event recording each external-call attempt made by the
pipeline, with the credential handle used and whether the attempt raised. -/
inductive TraceEvent where
  | lookupAttempt (tok : ApiToken) (failed : Bool)
  | restoreAttempt (tok : ApiToken) (failed : Bool)
  | refreshAttempt (ok : Bool)
deriving DecidableEq

/-- Environment for one pipeline run: outcomes of the external calls.
`lookup n tok u` is the outcome of the `n`-th attempt (0 = first try,
1 = retry) of `api.getUserByUsername(u)` under credential `tok`;
`restoreCall` likewise for `api.restorePurchase(uid)`.  `refresh k` is the
outcome of the `k`-th `auth.create_token()` call of this run: `some t`
yields a fresh handle, `none` raises.  `notifyCompleted`/`notifyError` are
`some msg` when the corresponding `send_telegram_notification` call raises
with message `msg`, `none` when it returns normally. -/
structure PipelineEnv where
  lookup : Nat → ApiToken → String → CallOutcome AccountPayload
  restoreCall : Nat → ApiToken → String → CallOutcome RestorePayload
  refresh : Nat → Option ApiToken
  notifyCompleted : Option String
  notifyError : Option String

/-- Embeds `refresh_api_token` (src/app.py lines 43-51): tries to create a
fresh token and swap the global handle; on any exception it only prints and
returns `False`, leaving the handle unchanged.  Returns the (possibly
swapped) handle and the boolean result. -/
def refresh_api_token (env : PipelineEnv) (k : Nat) (tok : ApiToken) : ApiToken × Bool :=
  match env.refresh k with
  | some t => (t, true)
  | none => (tok, false)

/-- Embeds the two identical `try/except` retry blocks of
`_process_request` (src/app.py lines 146-150 and 155-159): attempt the
call; on any exception call `refresh_api_token` and re-issue the call once
with the current handle; a second exception propagates.  Returns the final
outcome, the handle after the block, the refresh counter and the trace of
attempts. -/
def callWithRetry {α : Type} (call : Nat → ApiToken → CallOutcome α)
    (mkEv : ApiToken → Bool → TraceEvent) (env : PipelineEnv) (k : Nat) (tok : ApiToken) :
    CallOutcome α × ApiToken × Nat × List TraceEvent :=
  match call 0 tok with
  | .ok a => (.ok a, tok, k, [mkEv tok false])
  | .exn _ _ =>
    let rt := refresh_api_token env k tok
    match call 1 rt.1 with
    | .ok a => (.ok a, rt.1, k + 1, [mkEv tok true, .refreshAttempt rt.2, mkEv rt.1 false])
    | .exn a2 m2 => (.exn a2 m2, rt.1, k + 1, [mkEv tok true, .refreshAttempt rt.2, mkEv rt.1 true])

/-- Result of one `_process_request` run.  `statusWrites` is the ordered
sequence of assignments to `data["status"]` performed by the body;
`errorNote` is the note passed to the error notification (`str(e)`);
`successNote` the note of the success notification; `escaped` records
whether an exception escaped `_process_request` (a raising error
notification); `goldExamined` is a ghost field holding the product
identifier examined by the entitlement check when both upstream calls
succeeded. -/
structure PipelineResult where
  statusWrites : List Status
  errorNote : Option String
  successNote : Option String
  trace : List TraceEvent
  finalTok : ApiToken
  escaped : Bool
  goldExamined : Option (Option String)
deriving DecidableEq

/-- Embeds the `except Exception as e:` handler of `_process_request`
(src/app.py lines 174-179): write status `error`, then send the error
notification with `str(e)`; if that notification raises, the exception
escapes `_process_request`.  `pre` holds status writes already performed by
the `try` body before the exception. -/
def errorBranch (env : PipelineEnv) (msg : String) (pre : List Status)
    (tr : List TraceEvent) (tok : ApiToken) (gold : Option (Option String)) : PipelineResult :=
  { statusWrites := pre ++ [Status.error]
    errorNote := some msg
    successNote := none
    trace := tr
    finalTok := tok
    escaped := env.notifyError.isSome
    goldExamined := gold }

/-- Fixed allow-list of valid subscription product ids
(src/app.py lines 26-32). -/
def subscription_ids : List String :=
  ["locket_1600_1y", "locket_199_1m", "locket_199_1m_only", "locket_3600_1y",
    "locket_399_1m_only"]

/-- Embeds the entitlement evaluation of `_process_request`
(src/app.py lines 161-172): extract the Gold product identifier; if it is
in `subscription_ids` write `completed` and send the success notification
(whose exception, if any, is caught by the outer handler and turns the
request into `error`); otherwise raise `Exception("Gold entitlement not
found")`. -/
def goldCheck (env : PipelineEnv) (tok : ApiToken) (tr : List TraceEvent)
    (rp : RestorePayload) : PipelineResult :=
  match rp.goldProductId with
  | some p =>
    if p ∈ subscription_ids then
      match env.notifyCompleted with
      | none =>
        { statusWrites := [Status.completed]
          errorNote := none
          successNote := some ("Unlocked " ++ p)
          trace := tr
          finalTok := tok
          escaped := false
          goldExamined := some (some p) }
      | some m => errorBranch env m [Status.completed] tr tok (some (some p))
    else
      errorBranch env "Gold entitlement not found" [] tr tok (some (some p))
  | none => errorBranch env "Gold entitlement not found" [] tr tok (some none)

/-- Embeds `QueueManager._process_request` (src/app.py lines 141-179):
lookup with one refresh-and-retry on any exception, uid extraction, restore
with one refresh-and-retry on any exception, then the entitlement check;
any exception reaching the outer handler writes status `error`. -/
def process_request (env : PipelineEnv) (tok0 : ApiToken) (username : String) : PipelineResult :=
  match callWithRetry (fun n t => env.lookup n t username) TraceEvent.lookupAttempt env 0 tok0 with
  | (.exn _ m, tokA, _, trA) => errorBranch env m [] trA tokA none
  | (.ok acct, tokA, kA, trA) =>
    match acct.uidField with
    | none => errorBranch env "KeyError: uid" [] trA tokA none
    | some uid =>
      match callWithRetry (fun n t => env.restoreCall n t uid) TraceEvent.restoreAttempt env kA tokA with
      | (.exn _ m, tokB, _, trB) => errorBranch env m [] (trA ++ trB) tokB none
      | (.ok rp, tokB, _, trB) => goldCheck env tokB (trA ++ trB) rp

/-- Final value of `data["status"]` after a pipeline run (the last write). -/
def finalStatusW (r : PipelineResult) : Option Status :=
  r.statusWrites.getLast?

/-- True when the pipeline took the success branch, i.e. wrote
`"completed"` at src/app.py line 165. -/
def completedWritten (r : PipelineResult) : Prop :=
  Status.completed ∈ r.statusWrites

/-- Selects the lookup-attempt events of a trace. -/
def isLookupEv : TraceEvent → Bool
  | .lookupAttempt _ _ => true
  | _ => false

/-- Selects the restore-attempt events of a trace. -/
def isRestoreEv : TraceEvent → Bool
  | .restoreAttempt _ _ => true
  | _ => false

/-- Selects the refresh events of a trace. -/
def isRefreshEv : TraceEvent → Bool
  | .refreshAttempt _ => true
  | _ => false

/-- Lookup attempts recorded in a trace, in order. -/
def lookupEvents (tr : List TraceEvent) : List TraceEvent := tr.filter isLookupEv

/-- Restore attempts recorded in a trace, in order. -/
def restoreEvents (tr : List TraceEvent) : List TraceEvent := tr.filter isRestoreEv

/-- Credential refreshes recorded in a trace, in order. -/
def refreshEvents (tr : List TraceEvent) : List TraceEvent := tr.filter isRefreshEv

/-! ## The queue manager as a state machine

`QueueManager` runs one daemon worker (`_process_queue`, src/app.py lines
122-139) beside arbitrarily many producers (`add_to_queue`).  We model the
whole system as a total step function over an explicit state; each action is
one atomic step of the Python code.  Ghost fields record the submission
order, the order in which the worker marked requests `processing`, and a log
of all store writes. -/

/-- Ghost log entry: a request was submitted, or its status field was
written. -/
inductive Ev where
  | submitted (id : Nat)
  | wrote (id : Nat) (st : Status)
deriving DecidableEq

/-- Control point of the worker loop inside one iteration of
`_process_queue`:  `idle` = blocked at `queue.get()`; `popped` = after the
pop, before `data["status"] = "processing"`; `marked` = before the
processing notification; `readyToPipe` = notification returned, about to
call `_process_request`; `piping` = executing `_process_request`, with the
remaining status writes it will perform. -/
inductive Phase where
  | idle
  | popped (id : Nat)
  | marked (id : Nat)
  | readyToPipe (id : Nat)
  | piping (id : Nat) (writes : List Status)
deriving DecidableEq

/-- Whole-system state: the FIFO `queue.Queue` contents, the
`client_requests` store, the uuid source, `current_processing`, the global
`api` handle, the worker control point, and ghost history. -/
structure SysState where
  queue : List Nat
  store : List (Nat × Request)
  nextId : Nat
  current : Option Nat
  tok : ApiToken
  phase : Phase
  submittedOrder : List Nat
  startedOrder : List Nat
  log : List Ev
deriving DecidableEq

/-- Embeds dictionary lookup `self.client_requests[client_id]` /
membership. -/
def lookupStore : List (Nat × Request) → Nat → Option Request
  | [], _ => none
  | (k, r) :: rest, cid => if k = cid then some r else lookupStore rest cid

/-- Embeds `self.client_requests[client_id]["status"] = st`. -/
def setStatus : List (Nat × Request) → Nat → Status → List (Nat × Request)
  | [], _, _ => []
  | (k, r) :: rest, cid, st =>
    if k = cid then (k, { r with status := st }) :: rest
    else (k, r) :: setStatus rest cid st

/-- Status of a request in the store. -/
def statusOf (s : SysState) (cid : Nat) : Option Status :=
  (lookupStore s.store cid).map Request.status

/-- Producer and worker actions driving the system. -/
inductive Act where
  | submit (username ip : String)
  | popNext
  | markProcessing
  | notifyProcessing (failed : Bool)
  | runPipeline (env : PipelineEnv)
  | writeStatus

/-- One atomic step of the system.  `submit` is `add_to_queue`
(src/app.py lines 103-111); the remaining actions are the successive points
of one worker iteration (lines 122-137).  `notifyProcessing failed` injects
the outcome of the processing notification: when it raises (`failed =
true`) the exception is caught by the loop's bare `except` (line 138) and
the worker moves on, leaving the request as it was.  `runPipeline env`
executes `_process_request` under environment `env`; its status writes are
then applied one at a time by `writeStatus` steps.  Worker actions taken at
the wrong control point do nothing, so every action list denotes a valid
interleaving. -/
def step (s : SysState) : Act → SysState
  | .submit u ip =>
    let id := s.nextId
    { s with
      store := (id, ⟨u, ip, Status.waiting⟩) :: s.store
      queue := s.queue ++ [id]
      nextId := id + 1
      submittedOrder := s.submittedOrder ++ [id]
      log := s.log ++ [.submitted id] }
  | .popNext =>
    match s.phase, s.queue with
    | .idle, id :: rest => { s with queue := rest, current := some id, phase := .popped id }
    | _, _ => s
  | .markProcessing =>
    match s.phase with
    | .popped id =>
      { s with
        store := setStatus s.store id Status.processing
        phase := .marked id
        startedOrder := s.startedOrder ++ [id]
        log := s.log ++ [.wrote id Status.processing] }
    | _ => s
  | .notifyProcessing failed =>
    match s.phase with
    | .marked id =>
      if failed then { s with phase := .idle } else { s with phase := .readyToPipe id }
    | _ => s
  | .runPipeline env =>
    match s.phase with
    | .readyToPipe id =>
      match lookupStore s.store id with
      | some r =>
        let pr := process_request env s.tok r.username
        { s with phase := .piping id pr.statusWrites, tok := pr.finalTok }
      | none => { s with phase := .idle }
    | _ => s
  | .writeStatus =>
    match s.phase with
    | .piping _ [] => { s with phase := .idle }
    | .piping id (w :: ws) =>
      { s with
        store := setStatus s.store id w
        phase := .piping id ws
        log := s.log ++ [.wrote id w] }
    | _ => s

/-- Initial state: empty queue and store, worker blocked at `queue.get()`. -/
def initState : SysState :=
  { queue := []
    store := []
    nextId := 0
    current := none
    tok := ⟨0⟩
    phase := .idle
    submittedOrder := []
    startedOrder := []
    log := [] }

/-- Runs the system from the initial state through a list of actions. -/
def run (acts : List Act) : SysState :=
  acts.foldl step initState

/-- Embeds the position computation of `QueueManager.get_status`
(src/app.py lines 118-119):
`list(self.queue.queue).index(client_id) + 1 if client_id in
self.queue.queue else 0`. -/
def position (s : SysState) (cid : Nat) : Nat :=
  if cid ∈ s.queue then s.queue.indexOf cid + 1 else 0

/-- Response of the first variant's `get_status`: status and position. -/
structure StatusResp where
  status : Status
  position : Nat
deriving DecidableEq

/-- Embeds `QueueManager.get_status` (src/app.py lines 113-120): `None`
for an unknown id, otherwise the stored status and the queue position. -/
def get_status (s : SysState) (cid : Nat) : Option StatusResp :=
  match lookupStore s.store cid with
  | none => none
  | some r => some ⟨r.status, position s cid⟩

/-- Number of store records currently holding status `processing`. -/
def processingCount (s : SysState) : Nat :=
  s.store.countP (fun p => p.2.status == Status.processing)

/-! ## Estimator and full status payload (modelled from the spec)

The handler `restore_purchase` (src/app.py lines 287-296) reads
`status["total_queue"]` and `status["estimated_time"]` from its queue
manager's `get_status`, but the variant of `QueueManager` providing those
fields is not part of the source file; only the first variant's
`get_status` (status and position) is.  The estimator and the full status
payload are therefore modelled from the spec (sections 4.5 and 4.6). -/

/-- Modelled from the spec: the Estimator's `averageDuration()` (spec
section 4.5), missing from `src/app.py` — the arithmetic mean of the
retained window of completed durations, or the fixed default 5 when the
window is empty. -/
def averageDuration (hist : List ℚ) : ℚ :=
  if hist.length = 0 then 5 else hist.sum / (hist.length : ℚ)

/-- Modelled from the spec: recording one completed duration into the
Estimator's sliding window (spec section 4.5), missing from `src/app.py` —
append the new duration and discard the oldest entries beyond `N = 10`. -/
def recordDuration (hist : List ℚ) (d : ℚ) : List ℚ :=
  let h := hist ++ [d]
  h.drop (h.length - 10)

/-- Modelled from the spec: the Estimator's `estimate(position)` (spec
section 4.5), missing from `src/app.py` — `position * averageDuration()`. -/
def estimate (pos : Nat) (hist : List ℚ) : ℚ :=
  (pos : ℚ) * averageDuration hist

/-- Window contents after recording a whole sequence of completed
durations, oldest first, starting from an empty history. -/
def runEstimator (ds : List ℚ) : List ℚ :=
  ds.foldl recordDuration []

/-- Modelled from the spec: `totalQueueDepth` (spec section 4.6), missing
from `src/app.py` — pending count, plus one if some other request is
currently Processing. -/
def totalQueueDepth (s : SysState) (cid : Nat) : Nat :=
  s.queue.length +
    (match s.current with
     | some p => if p ≠ cid ∧ statusOf s p = some Status.processing then 1 else 0
     | none => 0)

/-- Full status payload of the second variant's `get_status`, as consumed
by `restore_purchase` (src/app.py lines 287-296). -/
structure FullStatusResp where
  status : Status
  position : Nat
  totalQueue : Nat
  estimatedTime : ℚ
deriving DecidableEq

/-- Modelled from the spec: the second variant's `get_status` returning
`status`, `position`, `total_queue` and `estimated_time` (spec sections 4.5
and 4.6), missing from `src/app.py`; the position computation reuses the
source's `position` and `estimated_time = estimate(position)`. -/
def getStatusFull (s : SysState) (hist : List ℚ) (cid : Nat) : Option FullStatusResp :=
  match lookupStore s.store cid with
  | none => none
  | some r => some ⟨r.status, position s cid, totalQueueDepth s cid,
      estimate (position s cid) hist⟩

/-- HTTP response of `restore_purchase`: success payload, 400, or 500. -/
inductive RestoreResp where
  | ok (clientId : Nat) (position : Nat) (totalQueue : Nat) (estimatedTime : ℚ)
  | badRequest
  | serverError
deriving DecidableEq

/-- Embeds the route handler `restore_purchase` (src/app.py lines
268-301): 500 when the global `api` is not initialized, 400 when the
username is missing or empty (`if not username`), otherwise enqueue via
`add_to_queue`, read the initial status and answer with `client_id`,
`position`, `total_queue` and `estimated_time`.  The unreachable
`None`-status case maps to the handler's `except` → 500 path. -/
def restore_purchase (apiReady : Bool) (body : Option String) (hist : List ℚ)
    (s : SysState) : RestoreResp × SysState :=
  if apiReady = false then (.serverError, s)
  else
    match body with
    | none => (.badRequest, s)
    | some u =>
      if u = "" then (.badRequest, s)
      else
        let cid := s.nextId
        let s2 := step s (.submit u "")
        match getStatusFull s2 hist cid with
        | some r => (.ok cid r.position r.totalQueue r.estimatedTime, s2)
        | none => (.serverError, s2)

/-! ## Auxiliary definitions for the invariant proofs and the concrete runs -/

/-- Id popped from the queue but not yet marked processing, if any. -/
def heldIds : Phase → List Nat
  | .popped id => [id]
  | _ => []

/-- Id owned by the worker in a post-mark phase, if any. -/
def phaseOwner : Phase → Option Nat
  | .marked id => some id
  | .readyToPipe id => some id
  | .piping id _ => some id
  | _ => none

/-- Reachability invariant of the system: the submission order decomposes
into the already-started ids, the id being popped, and the pending queue;
ids are unique and fresh; pending requests still hold status `waiting`; the
worker's owned id has been started; and the pipeline never writes status
`processing`. -/
structure SysInv (s : SysState) : Prop where
  decomp : s.submittedOrder = s.startedOrder ++ heldIds s.phase ++ s.queue
  nodup : s.submittedOrder.Nodup
  fresh : ∀ id ∈ s.submittedOrder, id < s.nextId
  owner : ∀ id, phaseOwner s.phase = some id → id ∈ s.startedOrder
  queueWaiting : ∀ id ∈ s.queue, ∃ u ip, lookupStore s.store id = some ⟨u, ip, Status.waiting⟩
  pipeWrites : ∀ id ws, s.phase = .piping id ws → Status.processing ∉ ws

/-- A occurs strictly before B in the list. -/
def beforeIn (l : List Nat) (A B : Nat) : Prop :=
  ∃ i j, i < j ∧ l.get? i = some A ∧ l.get? j = some B

/-- Concrete environment whose first lookup attempt raises a
non-authentication upstream failure and whose retry path succeeds. -/
def envNonAuthFail : PipelineEnv :=
  { lookup := fun n _ _ =>
      if n = 0 then .exn false "HTTP 502 upstream" else .ok ⟨some "uid1"⟩
    restoreCall := fun _ _ _ => .ok ⟨some "locket_199_1m"⟩
    refresh := fun _ => some ⟨1⟩
    notifyCompleted := none
    notifyError := none }

/-- Concrete environment where every external call succeeds with an
allow-listed Gold product and all notifications return normally. -/
def envAllOk : PipelineEnv :=
  { lookup := fun _ _ _ => .ok ⟨some "uid1"⟩
    restoreCall := fun _ _ _ => .ok ⟨some "locket_1600_1y"⟩
    refresh := fun _ => some ⟨1⟩
    notifyCompleted := none
    notifyError := none }

/-- Concrete environment where the first lookup attempt fails with an
authentication signature, the credential refresh itself fails, and the
retried lookup fails again with a different message. -/
def envRefreshFail : PipelineEnv :=
  { lookup := fun n _ _ =>
      if n = 0 then .exn true "401 session expired" else .exn false "401 again"
    restoreCall := fun _ _ _ => .ok ⟨some "locket_199_1m"⟩
    refresh := fun _ => none
    notifyCompleted := none
    notifyError := none }

/-- Concrete environment where both upstream calls succeed with an
allow-listed product but the success notification raises. -/
def envNotifyFlip : PipelineEnv :=
  { lookup := fun _ _ _ => .ok ⟨some "uid1"⟩
    restoreCall := fun _ _ _ => .ok ⟨some "locket_199_1m"⟩
    refresh := fun _ => some ⟨1⟩
    notifyCompleted := some "Telegram timeout"
    notifyError := none }

/-- Concrete run for C2: the first request's processing notification
raises, then a second request is processed to completion. -/
def actsNotifyBug : List Act :=
  [.submit "alice" "ip1", .submit "bob" "ip2",
   .popNext, .markProcessing, .notifyProcessing true,
   .popNext, .markProcessing, .notifyProcessing false,
   .runPipeline envAllOk, .writeStatus, .writeStatus]

/-- Concrete run for C6: after the stranded first request, the worker marks
the second request processing as well. -/
def actsTwoProcessing : List Act :=
  [.submit "alice" "ip1", .submit "bob" "ip2",
   .popNext, .markProcessing, .notifyProcessing true,
   .popNext, .markProcessing]

/-- Concrete run for C7: a single request processed under
`envNotifyFlip`. -/
def actsFlip : List Act :=
  [.submit "alice" "ip1", .popNext, .markProcessing, .notifyProcessing false,
   .runPipeline envNotifyFlip, .writeStatus, .writeStatus]

/-- Concrete run for the C5 witness: two submissions, the first processed
to completion, the second just marked processing. -/
def actsFifoW : List Act :=
  [.submit "alice" "ip1", .submit "bob" "ip2",
   .popNext, .markProcessing, .notifyProcessing false,
   .runPipeline envAllOk, .writeStatus, .writeStatus,
   .popNext, .markProcessing]

/-- Concrete run for the C8 witness: one request marked processing. -/
def actsPosW : List Act :=
  [.submit "alice" "ip1", .popNext, .markProcessing]

/-- Concrete state for the C3/C9 witnesses: two pending submissions. -/
def sTwoPending : SysState :=
  run [.submit "alice" "ip1", .submit "bob" "ip2"]

/-- Expected full status payload of request 1 in `sTwoPending` with empty
history. -/
def respTwoPending : FullStatusResp :=
  ⟨Status.waiting, 2, 2, estimate 2 []⟩

/-- The lookup step of the pipeline: `api.getUserByUsername` under the
retry wrapper (src/app.py lines 146-150). -/
def lookupPhase (env : PipelineEnv) (tok0 : ApiToken) (u : String) :
    CallOutcome AccountPayload × ApiToken × Nat × List TraceEvent :=
  callWithRetry (fun n t => env.lookup n t u) TraceEvent.lookupAttempt env 0 tok0

/-- The restore step of the pipeline: `api.restorePurchase` under the
retry wrapper (src/app.py lines 155-159). -/
def restorePhase (env : PipelineEnv) (kA : Nat) (tokA : ApiToken) (uid : String) :
    CallOutcome RestorePayload × ApiToken × Nat × List TraceEvent :=
  callWithRetry (fun n t => env.restoreCall n t uid) TraceEvent.restoreAttempt env kA tokA

/-! ## Theorems

First the characterization of the retry wrapper, then the claim theorems. -/

theorem errorBranch_trace (env : PipelineEnv) (msg : String) (pre : List Status)
    (tr : List TraceEvent) (tok : ApiToken) (gold : Option (Option String)) :
    (errorBranch env msg pre tr tok gold).trace = tr := rfl

theorem goldCheck_trace (env : PipelineEnv) (tok : ApiToken) (tr : List TraceEvent)
    (rp : RestorePayload) : (goldCheck env tok tr rp).trace = tr := by
  unfold goldCheck
  rcases rp.goldProductId with _ | p
  · rfl
  · by_cases hp : p ∈ subscription_ids
    · rcases hnc : env.notifyCompleted with _ | m <;> simp [hp, hnc, errorBranch]
    · simp [hp, errorBranch]

theorem cwr_first_ok {α : Type} {call : Nat → ApiToken → CallOutcome α}
    {mk : ApiToken → Bool → TraceEvent} {env : PipelineEnv} {k : Nat} {tok : ApiToken}
    {a : α} (h : call 0 tok = .ok a) :
    callWithRetry call mk env k tok = (.ok a, tok, k, [mk tok false]) := by
  simp only [callWithRetry, h]

theorem cwr_fail_ok {α : Type} {call : Nat → ApiToken → CallOutcome α}
    {mk : ApiToken → Bool → TraceEvent} {env : PipelineEnv} {k : Nat} {tok : ApiToken}
    {b : Bool} {m : String} {a : α} (h : call 0 tok = .exn b m)
    (h2 : call 1 (refresh_api_token env k tok).1 = .ok a) :
    callWithRetry call mk env k tok =
      (.ok a, (refresh_api_token env k tok).1, k + 1,
        [mk tok true, .refreshAttempt (refresh_api_token env k tok).2,
          mk (refresh_api_token env k tok).1 false]) := by
  simp only [callWithRetry, h, h2]

theorem cwr_fail_fail {α : Type} {call : Nat → ApiToken → CallOutcome α}
    {mk : ApiToken → Bool → TraceEvent} {env : PipelineEnv} {k : Nat} {tok : ApiToken}
    {b : Bool} {m : String} {b2 : Bool} {m2 : String} (h : call 0 tok = .exn b m)
    (h2 : call 1 (refresh_api_token env k tok).1 = .exn b2 m2) :
    callWithRetry call mk env k tok =
      (.exn b2 m2, (refresh_api_token env k tok).1, k + 1,
        [mk tok true, .refreshAttempt (refresh_api_token env k tok).2,
          mk (refresh_api_token env k tok).1 true]) := by
  simp only [callWithRetry, h, h2]

theorem cwr_cases {α : Type} (call : Nat → ApiToken → CallOutcome α)
    (mk : ApiToken → Bool → TraceEvent) (env : PipelineEnv) (k : Nat) (tok : ApiToken) :
    (∃ a, call 0 tok = .ok a ∧
      callWithRetry call mk env k tok = (.ok a, tok, k, [mk tok false])) ∨
    (∃ b m a, call 0 tok = .exn b m ∧
      call 1 (refresh_api_token env k tok).1 = .ok a ∧
      callWithRetry call mk env k tok =
        (.ok a, (refresh_api_token env k tok).1, k + 1,
          [mk tok true, .refreshAttempt (refresh_api_token env k tok).2,
            mk (refresh_api_token env k tok).1 false])) ∨
    (∃ b m b2 m2, call 0 tok = .exn b m ∧
      call 1 (refresh_api_token env k tok).1 = .exn b2 m2 ∧
      callWithRetry call mk env k tok =
        (.exn b2 m2, (refresh_api_token env k tok).1, k + 1,
          [mk tok true, .refreshAttempt (refresh_api_token env k tok).2,
            mk (refresh_api_token env k tok).1 true])) := by
  rcases h : call 0 tok with a | ⟨b, m⟩
  · exact Or.inl ⟨a, rfl, cwr_first_ok h⟩
  · rcases h2 : call 1 (refresh_api_token env k tok).1 with a2 | ⟨b2, m2⟩
    · exact Or.inr (Or.inl ⟨b, m, a2, rfl, rfl, cwr_fail_ok h h2⟩)
    · exact Or.inr (Or.inr ⟨b, m, b2, m2, rfl, rfl, cwr_fail_fail h h2⟩)

theorem process_request_eq (env : PipelineEnv) (tok0 : ApiToken) (u : String) :
    process_request env tok0 u =
      match lookupPhase env tok0 u with
      | (.exn _ m, tokA, _, trA) => errorBranch env m [] trA tokA none
      | (.ok acct, tokA, kA, trA) =>
        match acct.uidField with
        | none => errorBranch env "KeyError: uid" [] trA tokA none
        | some uid =>
          match restorePhase env kA tokA uid with
          | (.exn _ m, tokB, _, trB) => errorBranch env m [] (trA ++ trB) tokB none
          | (.ok rp, tokB, _, trB) => goldCheck env tokB (trA ++ trB) rp := rfl

theorem pr_trace (env : PipelineEnv) (tok0 : ApiToken) (u : String) :
    (process_request env tok0 u).trace =
      (lookupPhase env tok0 u).2.2.2 ++
      (match (lookupPhase env tok0 u).1 with
        | .ok acct =>
          match acct.uidField with
          | some uid =>
            (restorePhase env (lookupPhase env tok0 u).2.2.1 (lookupPhase env tok0 u).2.1
              uid).2.2.2
          | none => []
        | .exn _ _ => []) := by
  rw [process_request_eq]
  rcases hp : lookupPhase env tok0 u with ⟨out, tokA, kA, trA⟩
  cases out with
  | exn b m => simp [errorBranch_trace]
  | ok acct =>
    cases hu : acct.uidField with
    | none => simp [errorBranch_trace, hu]
    | some uid =>
      rcases hr : restorePhase env kA tokA uid with ⟨out2, tokB, kB, trB⟩
      cases out2 <;> simp [hu, hr, errorBranch_trace, goldCheck_trace]

theorem isLookupEv_eq : ∀ e : TraceEvent,
    isLookupEv e = (match e with | .lookupAttempt _ _ => true | _ => false) := fun _ => rfl

theorem lookupPhase_cases (env : PipelineEnv) (tok0 : ApiToken) (u : String) :
    (∃ a, env.lookup 0 tok0 u = .ok a ∧
      lookupPhase env tok0 u = (.ok a, tok0, 0, [.lookupAttempt tok0 false])) ∨
    (∃ b m a, env.lookup 0 tok0 u = .exn b m ∧
      env.lookup 1 (refresh_api_token env 0 tok0).1 u = .ok a ∧
      lookupPhase env tok0 u =
        (.ok a, (refresh_api_token env 0 tok0).1, 1,
          [.lookupAttempt tok0 true, .refreshAttempt (refresh_api_token env 0 tok0).2,
            .lookupAttempt (refresh_api_token env 0 tok0).1 false])) ∨
    (∃ b m b2 m2, env.lookup 0 tok0 u = .exn b m ∧
      env.lookup 1 (refresh_api_token env 0 tok0).1 u = .exn b2 m2 ∧
      lookupPhase env tok0 u =
        (.exn b2 m2, (refresh_api_token env 0 tok0).1, 1,
          [.lookupAttempt tok0 true, .refreshAttempt (refresh_api_token env 0 tok0).2,
            .lookupAttempt (refresh_api_token env 0 tok0).1 true])) :=
  cwr_cases (fun n t => env.lookup n t u) TraceEvent.lookupAttempt env 0 tok0

theorem restorePhase_cases (env : PipelineEnv) (k : Nat) (tok : ApiToken) (uid : String) :
    (∃ rp, env.restoreCall 0 tok uid = .ok rp ∧
      restorePhase env k tok uid = (.ok rp, tok, k, [.restoreAttempt tok false])) ∨
    (∃ b m rp, env.restoreCall 0 tok uid = .exn b m ∧
      env.restoreCall 1 (refresh_api_token env k tok).1 uid = .ok rp ∧
      restorePhase env k tok uid =
        (.ok rp, (refresh_api_token env k tok).1, k + 1,
          [.restoreAttempt tok true, .refreshAttempt (refresh_api_token env k tok).2,
            .restoreAttempt (refresh_api_token env k tok).1 false])) ∨
    (∃ b m b2 m2, env.restoreCall 0 tok uid = .exn b m ∧
      env.restoreCall 1 (refresh_api_token env k tok).1 uid = .exn b2 m2 ∧
      restorePhase env k tok uid =
        (.exn b2 m2, (refresh_api_token env k tok).1, k + 1,
          [.restoreAttempt tok true, .refreshAttempt (refresh_api_token env k tok).2,
            .restoreAttempt (refresh_api_token env k tok).1 true])) :=
  cwr_cases (fun n t => env.restoreCall n t uid) TraceEvent.restoreAttempt env k tok

theorem c1_bounds (env : PipelineEnv) (tok0 : ApiToken) (u : String) :
    (lookupEvents (process_request env tok0 u).trace).length ≤ 2 ∧
    (restoreEvents (process_request env tok0 u).trace).length ≤ 2 ∧
    (refreshEvents (process_request env tok0 u).trace).length =
      ((lookupEvents (process_request env tok0 u).trace).length - 1) +
      ((restoreEvents (process_request env tok0 u).trace).length - 1) := by
  rw [pr_trace]
  rcases lookupPhase_cases env tok0 u with ⟨a, h0, hE⟩ | ⟨b, m, a, h0, h1, hE⟩ |
    ⟨b, m, b2, m2, h0, h1, hE⟩
  · rw [hE]
    rcases hu : a.uidField with _ | uid
    · simp [hu, lookupEvents, restoreEvents, refreshEvents, isLookupEv, isRestoreEv, isRefreshEv]
    · rcases restorePhase_cases env 0 tok0 uid with ⟨rp, r0, hR⟩ | ⟨rb, rm, rp, r0, r1, hR⟩ |
        ⟨rb, rm, rb2, rm2, r0, r1, hR⟩ <;>
        simp [hu, hR, lookupEvents, restoreEvents, refreshEvents, isLookupEv, isRestoreEv,
          isRefreshEv]
  · rw [hE]
    rcases hu : a.uidField with _ | uid
    · simp [hu, lookupEvents, restoreEvents, refreshEvents, isLookupEv, isRestoreEv, isRefreshEv]
    · rcases restorePhase_cases env 1 (refresh_api_token env 0 tok0).1 uid with
        ⟨rp, r0, hR⟩ | ⟨rb, rm, rp, r0, r1, hR⟩ | ⟨rb, rm, rb2, rm2, r0, r1, hR⟩ <;>
        simp [hu, hR, lookupEvents, restoreEvents, refreshEvents, isLookupEv, isRestoreEv,
          isRefreshEv]
  · rw [hE]
    simp [lookupEvents, restoreEvents, refreshEvents, isLookupEv, isRestoreEv, isRefreshEv]

theorem c1_lookup_ok (env : PipelineEnv) (tok0 : ApiToken) (u : String) :
    ∀ a, env.lookup 0 tok0 u = .ok a →
      lookupEvents (process_request env tok0 u).trace = [.lookupAttempt tok0 false] := by
  intro a h0
  rw [pr_trace]
  have hE : lookupPhase env tok0 u = (.ok a, tok0, 0, [.lookupAttempt tok0 false]) :=
    cwr_first_ok h0
  rw [hE]
  rcases hu : a.uidField with _ | uid
  · simp [hu, lookupEvents, isLookupEv]
  · rcases restorePhase_cases env 0 tok0 uid with ⟨rp, r0, hR⟩ | ⟨rb, rm, rp, r0, r1, hR⟩ |
      ⟨rb, rm, rb2, rm2, r0, r1, hR⟩ <;>
      simp [hu, hR, lookupEvents, isLookupEv]

theorem c1_lookup_fail (env : PipelineEnv) (tok0 : ApiToken) (u : String) :
    ∀ b m, env.lookup 0 tok0 u = .exn b m →
      (process_request env tok0 u).trace.take 3 =
        [.lookupAttempt tok0 true,
          .refreshAttempt (refresh_api_token env 0 tok0).2,
          .lookupAttempt (refresh_api_token env 0 tok0).1
            (env.lookup 1 (refresh_api_token env 0 tok0).1 u).isExn] ∧
      (lookupEvents (process_request env tok0 u).trace).length = 2 := by
  intro b m h0
  rw [pr_trace]
  rcases lookupPhase_cases env tok0 u with ⟨a, h0x, hE⟩ | ⟨bx, mx, a, h0x, h1, hE⟩ |
    ⟨bx, mx, b2, m2, h0x, h1, hE⟩
  · rw [h0] at h0x; exact absurd h0x (by simp)
  · rw [hE, h1]
    rcases hu : a.uidField with _ | uid
    · simp [hu, lookupEvents, isLookupEv, CallOutcome.isExn]
    · rcases restorePhase_cases env 1 (refresh_api_token env 0 tok0).1 uid with
        ⟨rp, r0, hR⟩ | ⟨rb, rm, rp, r0, r1x, hR⟩ | ⟨rb, rm, rb2, rm2, r0, r1x, hR⟩ <;>
        simp [hu, hR, lookupEvents, isLookupEv, CallOutcome.isExn]
  · rw [hE, h1]
    simp [lookupEvents, isLookupEv, CallOutcome.isExn]

theorem c1_lookup_terminal (env : PipelineEnv) (tok0 : ApiToken) (u : String) :
    ∀ b m b2 m2, env.lookup 0 tok0 u = .exn b m →
      env.lookup 1 (refresh_api_token env 0 tok0).1 u = .exn b2 m2 →
      finalStatusW (process_request env tok0 u) = some Status.error ∧
      (process_request env tok0 u).errorNote = some m2 ∧
      restoreEvents (process_request env tok0 u).trace = [] := by
  intro b m b2 m2 h0 h1
  have hE : lookupPhase env tok0 u =
      (.exn b2 m2, (refresh_api_token env 0 tok0).1, 1,
        [.lookupAttempt tok0 true, .refreshAttempt (refresh_api_token env 0 tok0).2,
          .lookupAttempt (refresh_api_token env 0 tok0).1 true]) :=
    cwr_fail_fail h0 h1
  rw [process_request_eq, hE]
  simp [errorBranch, finalStatusW, restoreEvents, isRestoreEv]

theorem c1_restore (env : PipelineEnv) (tok0 : ApiToken) (u : String) :
    ∀ acct tokA kA trA uid,
      lookupPhase env tok0 u = (.ok acct, tokA, kA, trA) →
      acct.uidField = some uid →
      (∀ rp, env.restoreCall 0 tokA uid = .ok rp →
        restoreEvents (process_request env tok0 u).trace = [.restoreAttempt tokA false]) ∧
      (∀ b m, env.restoreCall 0 tokA uid = .exn b m →
        restoreEvents (process_request env tok0 u).trace =
          [.restoreAttempt tokA true,
            .restoreAttempt (refresh_api_token env kA tokA).1
              (env.restoreCall 1 (refresh_api_token env kA tokA).1 uid).isExn]) ∧
      (∀ b m b2 m2, env.restoreCall 0 tokA uid = .exn b m →
        env.restoreCall 1 (refresh_api_token env kA tokA).1 uid = .exn b2 m2 →
        finalStatusW (process_request env tok0 u) = some Status.error ∧
        (process_request env tok0 u).errorNote = some m2) := by
  intro acct tokA kA trA uid hL hu
  have htrA : List.filter isRestoreEv trA = [] := by
    rcases lookupPhase_cases env tok0 u with ⟨a, h0x, hE⟩ | ⟨bx, mx, a, h0x, h1x, hE⟩ |
      ⟨bx, mx, b2x, m2x, h0x, h1x, hE⟩ <;> rw [hL] at hE
    · simp only [Prod.mk.injEq, CallOutcome.ok.injEq] at hE
      rw [hE.2.2.2]; rfl
    · simp only [Prod.mk.injEq, CallOutcome.ok.injEq] at hE
      rw [hE.2.2.2]; rfl
    · exact absurd hE (by simp)
  refine ⟨?_, ?_, ?_⟩
  · intro rp r0
    have hR : restorePhase env kA tokA uid = (.ok rp, tokA, kA, [.restoreAttempt tokA false]) :=
      cwr_first_ok r0
    rw [pr_trace, hL]
    simp only [hu]
    rw [hR]
    show List.filter isRestoreEv (trA ++ [TraceEvent.restoreAttempt tokA false]) = _
    rw [List.filter_append, htrA]
    rfl
  · intro b m r0
    rcases h1 : env.restoreCall 1 (refresh_api_token env kA tokA).1 uid with rp | ⟨b2, m2⟩
    · have hR : restorePhase env kA tokA uid =
          (.ok rp, (refresh_api_token env kA tokA).1, kA + 1,
            [.restoreAttempt tokA true, .refreshAttempt (refresh_api_token env kA tokA).2,
              .restoreAttempt (refresh_api_token env kA tokA).1 false]) :=
        cwr_fail_ok r0 h1
      rw [pr_trace, hL]
      simp only [hu]
      rw [hR]
      show List.filter isRestoreEv (trA ++ _) = _
      rw [List.filter_append, htrA]
      rfl
    · have hR : restorePhase env kA tokA uid =
          (.exn b2 m2, (refresh_api_token env kA tokA).1, kA + 1,
            [.restoreAttempt tokA true, .refreshAttempt (refresh_api_token env kA tokA).2,
              .restoreAttempt (refresh_api_token env kA tokA).1 true]) :=
        cwr_fail_fail r0 h1
      rw [pr_trace, hL]
      simp only [hu]
      rw [hR]
      show List.filter isRestoreEv (trA ++ _) = _
      rw [List.filter_append, htrA]
      rfl
  · intro b m b2 m2 r0 r1
    have hR : restorePhase env kA tokA uid =
        (.exn b2 m2, (refresh_api_token env kA tokA).1, kA + 1,
          [.restoreAttempt tokA true, .refreshAttempt (refresh_api_token env kA tokA).2,
            .restoreAttempt (refresh_api_token env kA tokA).1 true]) :=
      cwr_fail_fail r0 r1
    rw [process_request_eq, hL]
    simp only [hu]
    rw [hR]
    exact ⟨rfl, rfl⟩

/-- C1 (amended): for every external call in the restore pipeline (account
lookup and restore), the call is attempted at most twice, with exactly one
credential refresh per retried call and none otherwise; if the call's first
attempt fails — for ANY reason, authentication-related or not — the pipeline
triggers exactly one credential refresh and retries that single call exactly
once; a second failure of any kind is terminal (final status `error`, the
second failure's message recorded, no further attempt of any call); a call
whose first attempt succeeds is never retried.  (The original claim's
restriction of the refresh-and-retry to authentication failures, and its
"non-authentication failures are never retried", are refuted by
`C1_counterexample`.) -/
theorem C1_retry_policy (env : PipelineEnv) (tok0 : ApiToken) (u : String) :
    ((lookupEvents (process_request env tok0 u).trace).length ≤ 2 ∧
      (restoreEvents (process_request env tok0 u).trace).length ≤ 2 ∧
      (refreshEvents (process_request env tok0 u).trace).length =
        ((lookupEvents (process_request env tok0 u).trace).length - 1) +
        ((restoreEvents (process_request env tok0 u).trace).length - 1)) ∧
    (∀ a, env.lookup 0 tok0 u = .ok a →
      lookupEvents (process_request env tok0 u).trace = [.lookupAttempt tok0 false]) ∧
    (∀ b m, env.lookup 0 tok0 u = .exn b m →
      (process_request env tok0 u).trace.take 3 =
        [.lookupAttempt tok0 true,
          .refreshAttempt (refresh_api_token env 0 tok0).2,
          .lookupAttempt (refresh_api_token env 0 tok0).1
            (env.lookup 1 (refresh_api_token env 0 tok0).1 u).isExn] ∧
      (lookupEvents (process_request env tok0 u).trace).length = 2) ∧
    (∀ b m b2 m2, env.lookup 0 tok0 u = .exn b m →
      env.lookup 1 (refresh_api_token env 0 tok0).1 u = .exn b2 m2 →
      finalStatusW (process_request env tok0 u) = some Status.error ∧
      (process_request env tok0 u).errorNote = some m2 ∧
      restoreEvents (process_request env tok0 u).trace = []) ∧
    (∀ acct tokA kA trA uid,
      lookupPhase env tok0 u = (.ok acct, tokA, kA, trA) →
      acct.uidField = some uid →
      (∀ rp, env.restoreCall 0 tokA uid = .ok rp →
        restoreEvents (process_request env tok0 u).trace = [.restoreAttempt tokA false]) ∧
      (∀ b m, env.restoreCall 0 tokA uid = .exn b m →
        restoreEvents (process_request env tok0 u).trace =
          [.restoreAttempt tokA true,
            .restoreAttempt (refresh_api_token env kA tokA).1
              (env.restoreCall 1 (refresh_api_token env kA tokA).1 uid).isExn]) ∧
      (∀ b m b2 m2, env.restoreCall 0 tokA uid = .exn b m →
        env.restoreCall 1 (refresh_api_token env kA tokA).1 uid = .exn b2 m2 →
        finalStatusW (process_request env tok0 u) = some Status.error ∧
        (process_request env tok0 u).errorNote = some m2)) :=
  ⟨c1_bounds env tok0 u, c1_lookup_ok env tok0 u, c1_lookup_fail env tok0 u,
    c1_lookup_terminal env tok0 u, c1_restore env tok0 u⟩

/-- C1 counterexample: under `envNonAuthFail` the first lookup attempt fails
with a NON-authentication failure (`isAuth = false`), yet the pipeline
refreshes and retries the call — two lookup attempts occur and the run even
completes — refuting the claim that a call failing with a non-authentication
failure is never retried. -/
theorem C1_counterexample :
    envNonAuthFail.lookup 0 ⟨0⟩ "alice" = .exn false "HTTP 502 upstream" ∧
    (lookupEvents (process_request envNonAuthFail ⟨0⟩ "alice").trace).length = 2 ∧
    refreshEvents (process_request envNonAuthFail ⟨0⟩ "alice").trace =
      [.refreshAttempt true] ∧
    finalStatusW (process_request envNonAuthFail ⟨0⟩ "alice") = some Status.completed := by
  refine ⟨rfl, rfl, rfl, rfl⟩

/-- Witness for `C1_retry_policy`: at the concrete environment
`envNonAuthFail` the failing first lookup attempt is followed by exactly one
refresh and one retry. -/
theorem C1_retry_policy_witness :
    envNonAuthFail.lookup 0 ⟨0⟩ "alice" = .exn false "HTTP 502 upstream" ∧
    (process_request envNonAuthFail ⟨0⟩ "alice").trace.take 3 =
      [.lookupAttempt ⟨0⟩ true, .refreshAttempt true, .lookupAttempt ⟨1⟩ false] ∧
    (lookupEvents (process_request envNonAuthFail ⟨0⟩ "alice").trace).length = 2 := by
  have h := (C1_retry_policy envNonAuthFail ⟨0⟩ "alice").2.2.1 false "HTTP 502 upstream" rfl
  exact ⟨rfl, h.1, h.2⟩

/-- C4: for every request whose two upstream calls succeed, the pipeline takes
the success branch (writes status `completed`) iff the Gold entitlement's
product identifier is present and a member of the fixed allow-list
`subscription_ids`; if it is absent or not allow-listed, the request ends in
status `error` with the entitlement-mismatch message
"Gold entitlement not found" even though both upstream calls succeeded. -/
theorem C4_entitlement (env : PipelineEnv) (tok0 : ApiToken) (u : String)
    (acct : AccountPayload) (tokA : ApiToken) (kA : Nat) (trA : List TraceEvent)
    (uid : String) (rp : RestorePayload) (tokB : ApiToken) (kB : Nat) (trB : List TraceEvent)
    (h1 : lookupPhase env tok0 u = (.ok acct, tokA, kA, trA))
    (h2 : acct.uidField = some uid)
    (h3 : restorePhase env kA tokA uid = (.ok rp, tokB, kB, trB)) :
    (completedWritten (process_request env tok0 u) ↔
      ∃ p, rp.goldProductId = some p ∧ p ∈ subscription_ids) ∧
    ((∀ p, rp.goldProductId = some p → p ∉ subscription_ids) →
      finalStatusW (process_request env tok0 u) = some Status.error ∧
      (process_request env tok0 u).errorNote = some "Gold entitlement not found") := by
  rw [show process_request env tok0 u = goldCheck env tokB (trA ++ trB) rp by
    rw [process_request_eq, h1]; simp only [h2]; rw [h3]]
  unfold goldCheck
  rcases hg : rp.goldProductId with _ | p
  · simp [errorBranch, completedWritten, finalStatusW]
  · by_cases hp : p ∈ subscription_ids
    · rcases hnc : env.notifyCompleted with _ | m <;>
        simp [hp, hnc, errorBranch, completedWritten, finalStatusW]
    · simp [hp, errorBranch, completedWritten, finalStatusW]

/-- Witness for `C4_entitlement`: under `envAllOk` (both calls succeed, Gold
product "locket_1600_1y" which is allow-listed) the pipeline takes the
success branch. -/
theorem C4_entitlement_witness :
    completedWritten (process_request envAllOk ⟨0⟩ "alice") ∧
    (process_request envAllOk ⟨0⟩ "alice").successNote = some "Unlocked locket_1600_1y" :=
  ⟨(C4_entitlement envAllOk ⟨0⟩ "alice" ⟨some "uid1"⟩ ⟨0⟩ 0 [.lookupAttempt ⟨0⟩ false]
      "uid1" ⟨some "locket_1600_1y"⟩ ⟨0⟩ 0 [.restoreAttempt ⟨0⟩ false] rfl rfl rfl).1.mpr
    ⟨"locket_1600_1y", rfl, by decide⟩, rfl⟩

/-- C10: when the credential refresh performed on the retry path itself
fails, the failure is swallowed — `refresh_api_token` returns the previous
handle and `False`, raising nothing — the retried external call is then
issued against the previous, unrefreshed credential handle, and the error
recorded for the request is the message of that retried call, not the
refresh failure.  Stated for both pipeline calls. -/
theorem C10_swallowed_refresh (env : PipelineEnv) (tok0 : ApiToken) (u : String) :
    (∀ k tok, env.refresh k = none → refresh_api_token env k tok = (tok, false)) ∧
    (∀ b m b2 m2, env.lookup 0 tok0 u = .exn b m → env.refresh 0 = none →
      env.lookup 1 tok0 u = .exn b2 m2 →
      (process_request env tok0 u).trace =
        [.lookupAttempt tok0 true, .refreshAttempt false, .lookupAttempt tok0 true] ∧
      finalStatusW (process_request env tok0 u) = some Status.error ∧
      (process_request env tok0 u).errorNote = some m2 ∧
      (process_request env tok0 u).finalTok = tok0) ∧
    (∀ acct uid b m b2 m2, env.lookup 0 tok0 u = .ok acct → acct.uidField = some uid →
      env.restoreCall 0 tok0 uid = .exn b m → env.refresh 0 = none →
      env.restoreCall 1 tok0 uid = .exn b2 m2 →
      (process_request env tok0 u).trace =
        [.lookupAttempt tok0 false, .restoreAttempt tok0 true, .refreshAttempt false,
          .restoreAttempt tok0 true] ∧
      finalStatusW (process_request env tok0 u) = some Status.error ∧
      (process_request env tok0 u).errorNote = some m2 ∧
      (process_request env tok0 u).finalTok = tok0) := by
  refine ⟨?_, ?_, ?_⟩
  · intro k tok hk
    simp [refresh_api_token, hk]
  · intro b m b2 m2 h0 hrf h1
    have hrt : refresh_api_token env 0 tok0 = (tok0, false) := by
      simp [refresh_api_token, hrf]
    have h1x : env.lookup 1 (refresh_api_token env 0 tok0).1 u = .exn b2 m2 := by
      rw [hrt]; exact h1
    have hE : lookupPhase env tok0 u =
        (.exn b2 m2, (refresh_api_token env 0 tok0).1, 1,
          [.lookupAttempt tok0 true, .refreshAttempt (refresh_api_token env 0 tok0).2,
            .lookupAttempt (refresh_api_token env 0 tok0).1 true]) :=
      cwr_fail_fail h0 h1x
    rw [process_request_eq, hE, hrt]
    exact ⟨rfl, rfl, rfl, rfl⟩
  · intro acct uid b m b2 m2 h0 hu hr0 hrf hr1
    have hrt : refresh_api_token env 0 tok0 = (tok0, false) := by
      simp [refresh_api_token, hrf]
    have hL : lookupPhase env tok0 u = (.ok acct, tok0, 0, [.lookupAttempt tok0 false]) :=
      cwr_first_ok h0
    have hr1x : env.restoreCall 1 (refresh_api_token env 0 tok0).1 uid = .exn b2 m2 := by
      rw [hrt]; exact hr1
    have hR : restorePhase env 0 tok0 uid =
        (.exn b2 m2, (refresh_api_token env 0 tok0).1, 1,
          [.restoreAttempt tok0 true, .refreshAttempt (refresh_api_token env 0 tok0).2,
            .restoreAttempt (refresh_api_token env 0 tok0).1 true]) :=
      cwr_fail_fail hr0 hr1x
    rw [process_request_eq, hL]
    simp only [hu]
    rw [hR, hrt]
    exact ⟨rfl, rfl, rfl, rfl⟩

/-- Witness for `C10_swallowed_refresh`: under `envRefreshFail` the lookup
fails, the refresh fails (swallowed), the retry runs against the original
handle `⟨0⟩` and its message "401 again" is the recorded error. -/
theorem C10_swallowed_refresh_witness :
    envRefreshFail.lookup 0 ⟨0⟩ "alice" = .exn true "401 session expired" ∧
    envRefreshFail.refresh 0 = none ∧
    (process_request envRefreshFail ⟨0⟩ "alice").trace =
      [.lookupAttempt ⟨0⟩ true, .refreshAttempt false, .lookupAttempt ⟨0⟩ true] ∧
    (process_request envRefreshFail ⟨0⟩ "alice").errorNote = some "401 again" := by
  have h := (C10_swallowed_refresh envRefreshFail ⟨0⟩ "alice").2.1 true "401 session expired"
    false "401 again" rfl rfl rfl
  exact ⟨rfl, rfl, h.1, h.2.2.1⟩

theorem lookupStore_setStatus_ne (st : List (Nat × Request)) (cid id : Nat) (w : Status)
    (h : id ≠ cid) : lookupStore (setStatus st cid w) id = lookupStore st id := by
  induction st with
  | nil => rfl
  | cons p rest ih =>
    obtain ⟨k, r⟩ := p
    simp only [setStatus]
    by_cases hk : k = cid
    · rw [if_pos hk]
      subst hk
      have hki : ¬ k = id := fun hh => h hh.symm
      simp [lookupStore, hki]
    · rw [if_neg hk]
      simp only [lookupStore]
      by_cases hki : k = id
      · rw [if_pos hki, if_pos hki]
      · rw [if_neg hki, if_neg hki]
        exact ih

theorem pr_statusWrites (env : PipelineEnv) (tok0 : ApiToken) (u : String) :
    (process_request env tok0 u).statusWrites = [Status.completed] ∨
    (process_request env tok0 u).statusWrites = [Status.completed, Status.error] ∨
    (process_request env tok0 u).statusWrites = [Status.error] := by
  rw [process_request_eq]
  rcases hp : lookupPhase env tok0 u with ⟨out, tokA, kA, trA⟩
  cases out with
  | exn b m => right; right; rfl
  | ok acct =>
    cases hu : acct.uidField with
    | none => right; right; simp [hu, errorBranch]
    | some uid =>
      rcases hr : restorePhase env kA tokA uid with ⟨out2, tokB, kB, trB⟩
      cases out2 with
      | exn b m => right; right; simp [hu, hr, errorBranch]
      | ok rp =>
        simp only [hu, hr]
        unfold goldCheck
        rcases hg : rp.goldProductId with _ | p
        · right; right; simp [hg, errorBranch]
        · by_cases hpi : p ∈ subscription_ids
          · rcases hnc : env.notifyCompleted with _ | m
            · left; simp [hg, hpi, hnc]
            · right; left; simp [hg, hpi, hnc, errorBranch]
          · right; right; simp [hg, hpi, errorBranch]

theorem pr_no_processing (env : PipelineEnv) (tok0 : ApiToken) (u : String) :
    Status.processing ∉ (process_request env tok0 u).statusWrites := by
  rcases pr_statusWrites env tok0 u with h | h | h <;> rw [h] <;> decide

theorem queue_subset_submitted {s : SysState} (h : SysInv s) :
    ∀ id ∈ s.queue, id ∈ s.submittedOrder := by
  intro id hid
  rw [h.decomp]
  simp [hid]

theorem started_not_in_queue {s : SysState} (h : SysInv s) :
    ∀ id ∈ s.startedOrder, id ∉ s.queue := by
  intro id hid hq
  have hnd := h.nodup
  rw [h.decomp] at hnd
  exact (List.nodup_append.mp hnd).2.2 (by simp [hid]) hq

theorem popped_not_in_queue {s : SysState} (h : SysInv s) (id : Nat)
    (hph : s.phase = .popped id) : id ∉ s.queue := by
  intro hq
  have hnd := h.nodup
  rw [h.decomp] at hnd
  exact (List.nodup_append.mp hnd).2.2
    (show id ∈ s.startedOrder ++ heldIds s.phase by simp [heldIds, hph]) hq

theorem sysInv_init : SysInv initState := by
  refine ⟨rfl, List.nodup_nil, ?_, ?_, ?_, ?_⟩
  · intro id hid; simp [initState] at hid
  · intro id hid; simp [initState, phaseOwner] at hid
  · intro id hid; simp [initState] at hid
  · intro id ws hws; simp [initState] at hws

theorem sysInv_step (s : SysState) (a : Act) (h : SysInv s) : SysInv (step s a) := by
  obtain ⟨hdec, hnd, hfr, how, hqw, hpw⟩ := h
  cases a with
  | submit u ip =>
    have hnew : s.nextId ∉ s.submittedOrder := fun hin => absurd (hfr _ hin) (lt_irrefl _)
    simp only [step]
    refine ⟨?_, ?_, ?_, ?_, ?_, ?_⟩
    · rw [hdec]
      simp [List.append_assoc]
    · exact hnd.append (List.nodup_singleton _)
        (by intro x hx hx2; simp at hx2; subst hx2; exact hnew hx)
    · intro id hid
      have hid2 : id ∈ s.submittedOrder ++ [s.nextId] := hid
      show id < s.nextId + 1
      rcases List.mem_append.mp hid2 with h1 | h1
      · exact Nat.lt_succ_of_lt (hfr _ h1)
      · simp at h1; omega
    · exact how
    · intro id hid
      rcases List.mem_append.mp hid with h1 | h1
      · obtain ⟨u0, ip0, hl⟩ := hqw id h1
        have hsub : id ∈ s.submittedOrder := by rw [hdec]; simp [h1]
        have hne : ¬ s.nextId = id := by
          have := hfr id hsub
          omega
        exact ⟨u0, ip0, by simp [lookupStore, hne, hl]⟩
      · simp at h1
        subst h1
        exact ⟨u, ip, by simp [lookupStore]⟩
    · exact hpw
  | popNext =>
    rcases hph : s.phase with _ | id | id | id | ⟨id, ws⟩
    · rcases hq : s.queue with _ | ⟨id, rest⟩
      · simp only [step, hph, hq]
        exact ⟨hdec, hnd, hfr, how, hqw, hpw⟩
      · simp only [step, hph, hq]
        refine ⟨?_, hnd, hfr, ?_, ?_, ?_⟩
        · rw [hdec, hph, hq]
          simp [heldIds]
        · intro id0 h0; simp [phaseOwner] at h0
        · intro id0 h0
          exact hqw id0 (by rw [hq]; exact List.mem_cons_of_mem _ h0)
        · intro id0 ws0 hw; simp at hw
    · simp only [step, hph]; exact ⟨hdec, hnd, hfr, how, hqw, hpw⟩
    · simp only [step, hph]; exact ⟨hdec, hnd, hfr, how, hqw, hpw⟩
    · simp only [step, hph]; exact ⟨hdec, hnd, hfr, how, hqw, hpw⟩
    · simp only [step, hph]; exact ⟨hdec, hnd, hfr, how, hqw, hpw⟩
  | markProcessing =>
    rcases hph : s.phase with _ | id | id | id | ⟨id, ws⟩
    · simp only [step, hph]; exact ⟨hdec, hnd, hfr, how, hqw, hpw⟩
    · have hnin : id ∉ s.queue :=
        popped_not_in_queue ⟨hdec, hnd, hfr, how, hqw, hpw⟩ id hph
      simp only [step, hph]
      refine ⟨?_, hnd, hfr, ?_, ?_, ?_⟩
      · rw [hdec, hph]
        simp [heldIds]
      · intro id0 h0
        simp [phaseOwner] at h0
        subst h0
        simp
      · intro id0 h0
        obtain ⟨u0, ip0, hl⟩ := hqw id0 h0
        have hne : id0 ≠ id := fun hh => hnin (hh ▸ h0)
        exact ⟨u0, ip0, by rw [lookupStore_setStatus_ne _ _ _ _ hne]; exact hl⟩
      · intro id0 ws0 hw; simp at hw
    · simp only [step, hph]; exact ⟨hdec, hnd, hfr, how, hqw, hpw⟩
    · simp only [step, hph]; exact ⟨hdec, hnd, hfr, how, hqw, hpw⟩
    · simp only [step, hph]; exact ⟨hdec, hnd, hfr, how, hqw, hpw⟩
  | notifyProcessing failed =>
    rcases hph : s.phase with _ | id | id | id | ⟨id, ws⟩
    · simp only [step, hph]; exact ⟨hdec, hnd, hfr, how, hqw, hpw⟩
    · simp only [step, hph]; exact ⟨hdec, hnd, hfr, how, hqw, hpw⟩
    · simp only [step, hph]
      by_cases hf : failed
      · rw [if_pos hf]
        refine ⟨?_, hnd, hfr, ?_, hqw, ?_⟩
        · rw [hdec, hph]; simp [heldIds]
        · intro id0 h0; simp [phaseOwner] at h0
        · intro id0 ws0 hw; simp at hw
      · rw [if_neg hf]
        refine ⟨?_, hnd, hfr, ?_, hqw, ?_⟩
        · rw [hdec, hph]; simp [heldIds]
        · intro id0 h0
          simp [phaseOwner] at h0
          subst h0
          exact how id (by rw [hph]; rfl)
        · intro id0 ws0 hw; simp at hw
    · simp only [step, hph]; exact ⟨hdec, hnd, hfr, how, hqw, hpw⟩
    · simp only [step, hph]; exact ⟨hdec, hnd, hfr, how, hqw, hpw⟩
  | runPipeline env =>
    rcases hph : s.phase with _ | id | id | id | ⟨id, ws⟩
    · simp only [step, hph]; exact ⟨hdec, hnd, hfr, how, hqw, hpw⟩
    · simp only [step, hph]; exact ⟨hdec, hnd, hfr, how, hqw, hpw⟩
    · simp only [step, hph]; exact ⟨hdec, hnd, hfr, how, hqw, hpw⟩
    · simp only [step, hph]
      rcases hl : lookupStore s.store id with _ | r
      · refine ⟨?_, hnd, hfr, ?_, hqw, ?_⟩
        · rw [hdec, hph]; simp [heldIds]
        · intro id0 h0; simp [phaseOwner] at h0
        · intro id0 ws0 hw; simp at hw
      · refine ⟨?_, hnd, hfr, ?_, hqw, ?_⟩
        · rw [hdec, hph]; simp [heldIds]
        · intro id0 h0
          simp [phaseOwner] at h0
          subst h0
          exact how id (by rw [hph]; rfl)
        · intro id0 ws0 hw
          simp [Phase.piping.injEq] at hw
          rw [← hw.2]
          exact pr_no_processing env s.tok r.username
    · simp only [step, hph]; exact ⟨hdec, hnd, hfr, how, hqw, hpw⟩
  | writeStatus =>
    rcases hph : s.phase with _ | id | id | id | ⟨id, ws⟩
    · simp only [step, hph]; exact ⟨hdec, hnd, hfr, how, hqw, hpw⟩
    · simp only [step, hph]; exact ⟨hdec, hnd, hfr, how, hqw, hpw⟩
    · simp only [step, hph]; exact ⟨hdec, hnd, hfr, how, hqw, hpw⟩
    · simp only [step, hph]; exact ⟨hdec, hnd, hfr, how, hqw, hpw⟩
    · rcases ws with _ | ⟨w, ws2⟩
      · simp only [step, hph]
        refine ⟨?_, hnd, hfr, ?_, hqw, ?_⟩
        · rw [hdec, hph]; simp [heldIds]
        · intro id0 h0; simp [phaseOwner] at h0
        · intro id0 ws0 hw; simp at hw
      · have hid : id ∈ s.startedOrder := how id (by rw [hph]; rfl)
        have hnin : id ∉ s.queue :=
          started_not_in_queue ⟨hdec, hnd, hfr, how, hqw, hpw⟩ id hid
        simp only [step, hph]
        refine ⟨?_, hnd, hfr, ?_, ?_, ?_⟩
        · rw [hdec, hph]; simp [heldIds]
        · intro id0 h0
          simp [phaseOwner] at h0
          subst h0
          exact hid
        · intro id0 h0
          obtain ⟨u0, ip0, hl⟩ := hqw id0 h0
          have hne : id0 ≠ id := fun hh => hnin (hh ▸ h0)
          exact ⟨u0, ip0, by rw [lookupStore_setStatus_ne _ _ _ _ hne]; exact hl⟩
        · intro id0 ws0 hw
          simp [Phase.piping.injEq] at hw
          rw [← hw.2]
          have hws := hpw id (w :: ws2) hph
          simp at hws
          exact hws.2

theorem sysInv_run (acts : List Act) : SysInv (run acts) := by
  have hgen : ∀ (l : List Act) (s : SysState), SysInv s → SysInv (l.foldl step s) := by
    intro l
    induction l with
    | nil => exact fun s hs => hs
    | cons a rest ih => exact fun s hs => ih (step s a) (sysInv_step s a hs)
  exact hgen acts initState sysInv_init

/-- C5: FIFO processing order.  For every interleaving of producer and
worker actions, if request A is submitted strictly before request B and the
worker has begun processing B (marked it `processing`), then the worker
began processing A before B: the order of `startedOrder` agrees with
`submittedOrder`. -/
theorem C5_fifo (acts : List Act) (A B : Nat)
    (h1 : beforeIn (run acts).submittedOrder A B)
    (h2 : B ∈ (run acts).startedOrder) :
    beforeIn (run acts).startedOrder A B := by
  have hI := sysInv_run acts
  obtain ⟨i, j, hij, hiA, hjB⟩ := h1
  obtain ⟨⟨jB, hjBlt⟩, hget⟩ := List.mem_iff_get.mp h2
  have hgetB : (run acts).startedOrder.get? jB = some B := by
    rw [List.get?_eq_get hjBlt, hget]
  have hdec : (run acts).submittedOrder =
      (run acts).startedOrder ++ (heldIds (run acts).phase ++ (run acts).queue) := by
    rw [hI.decomp, List.append_assoc]
  have hsubB : (run acts).submittedOrder.get? jB = some B := by
    rw [hdec, List.get?_append hjBlt]
    exact hgetB
  have hjBlt2 : jB < (run acts).submittedOrder.length := by
    rw [hdec, List.length_append]
    omega
  have hjeq : jB = j := List.get?_inj hjBlt2 hI.nodup (by rw [hsubB, hjB])
  have hilt : i < (run acts).startedOrder.length := by omega
  have hiA2 : (run acts).startedOrder.get? i = some A := by
    have hx : (run acts).submittedOrder.get? i = (run acts).startedOrder.get? i := by
      rw [hdec]
      exact List.get?_append hilt
    rw [← hx]
    exact hiA
  exact ⟨i, jB, by omega, hiA2, hgetB⟩

/-- Witness for `C5_fifo`: in the concrete run `actsFifoW`, request 0 is
submitted before request 1, both are started, and 0 is started before 1. -/
theorem C5_fifo_witness :
    beforeIn (run actsFifoW).submittedOrder 0 1 ∧ 1 ∈ (run actsFifoW).startedOrder ∧
    beforeIn (run actsFifoW).startedOrder 0 1 := by
  have hb : beforeIn (run actsFifoW).submittedOrder 0 1 := ⟨0, 1, by omega, rfl, rfl⟩
  have hm : 1 ∈ (run actsFifoW).startedOrder := by decide
  exact ⟨hb, hm, C5_fifo actsFifoW 0 1 hb hm⟩

/-- C8: the position computation of `get_status`.  In every reachable
state: a request whose stored status is `processing` has position 0; a
pending request's position is its 1-based rank in the queue snapshot; an id
found in neither place (terminal or unknown) has position 0. -/
theorem C8_position (acts : List Act) (cid : Nat) :
    (statusOf (run acts) cid = some Status.processing → position (run acts) cid = 0) ∧
    (cid ∈ (run acts).queue →
      position (run acts) cid = (run acts).queue.indexOf cid + 1) ∧
    (cid ∉ (run acts).queue → position (run acts) cid = 0) := by
  have hI := sysInv_run acts
  refine ⟨?_, ?_, ?_⟩
  · intro hst
    have hq : cid ∉ (run acts).queue := by
      intro hin
      obtain ⟨u0, ip0, hl⟩ := hI.queueWaiting cid hin
      unfold statusOf at hst
      rw [hl] at hst
      simp at hst
    simp [position, hq]
  · intro hin
    simp [position, hin]
  · intro hin
    simp [position, hin]

/-- Witness for `C8_position`: in the concrete run `actsPosW` request 0 is
`processing` and its position is 0. -/
theorem C8_position_witness :
    statusOf (run actsPosW) 0 = some Status.processing ∧ position (run actsPosW) 0 = 0 :=
  ⟨rfl, (C8_position actsPosW 0).1 rfl⟩

/-- C2 (code bug): in the run `actsNotifyBug` the first request's
`processing` notification raises; the loop's bare `except` swallows the
exception, the iteration ends with the request still in non-terminal
`processing` (the pipeline never ran for it), while the worker itself
continues and completes the next request. -/
theorem C2_notification_bug :
    statusOf (run actsNotifyBug) 0 = some Status.processing ∧
    (run actsNotifyBug).phase = Phase.idle ∧
    (run actsNotifyBug).queue = [] ∧
    statusOf (run actsNotifyBug) 1 = some Status.completed :=
  ⟨rfl, rfl, rfl, rfl⟩

/-- C6 (code bug): in the run `actsTwoProcessing`, after the first
request's processing notification raises and the worker moves on to the
second request, two requests hold status `processing` at the same instant. -/
theorem C6_two_processing_bug :
    processingCount (run actsTwoProcessing) = 2 ∧
    statusOf (run actsTwoProcessing) 0 = some Status.processing ∧
    statusOf (run actsTwoProcessing) 1 = some Status.processing :=
  ⟨rfl, rfl, rfl⟩

/-- C7 (code bug): in the run `actsFlip` both upstream calls succeed with an
allow-listed product, the request is written `completed`, and the raising
success notification then flips it to `error`: the write log shows the
illegal transition Completed → Error. -/
theorem C7_terminal_regression_bug :
    (run actsFlip).log =
      [.submitted 0, .wrote 0 Status.processing, .wrote 0 Status.completed,
        .wrote 0 Status.error] ∧
    statusOf (run actsFlip) 0 = some Status.error ∧
    (process_request envNotifyFlip ⟨0⟩ "alice").statusWrites =
      [Status.completed, Status.error] :=
  ⟨rfl, rfl, rfl⟩

theorem runEstimator_eq (ds : List ℚ) :
    runEstimator ds = ds.drop (ds.length - 10) := by
  induction ds using List.reverseRecOn with
  | nil => rfl
  | append_singleton ds d ih =>
    have hstep : runEstimator (ds ++ [d]) = recordDuration (runEstimator ds) d := by
      unfold runEstimator
      rw [List.foldl_append]
      rfl
    rw [hstep, ih, recordDuration]
    by_cases hn : ds.length ≤ 10
    · have h1 : ds.length - 10 = 0 := by omega
      rw [h1, List.drop_zero]
    · have h2 : (ds.drop (ds.length - 10) ++ [d]).length - 10 = 1 := by
        rw [List.length_append, List.length_drop]
        simp only [List.length_singleton]
        omega
      rw [h2]
      rw [List.drop_append_of_le_length (by rw [List.length_drop]; omega)]
      rw [List.drop_drop]
      rw [List.length_append]
      simp only [List.length_singleton]
      have h3 : ds.length + 1 - 10 = ds.length - 9 := by omega
      have h4 : ds.length - 10 + 1 = ds.length - 9 := by omega
      rw [h3, h4, List.drop_append_of_le_length (by omega)]

theorem runEstimator_len (ds : List ℚ) : (runEstimator ds).length ≤ 10 := by
  rw [runEstimator_eq, List.length_drop]
  omega

/-- C3: the ETA computation.  For every status query answered by
`getStatusFull`, `estimated_time = position * averageDuration(history)`,
and a query at position 0 gets estimate 0; `averageDuration` is the fixed
default 5 on an empty window and the arithmetic mean of the window
otherwise; and the window retained by recording durations is exactly the
last at-most-10 completed durations. -/
theorem C3_estimator :
    (∀ s hist cid r, getStatusFull s hist cid = some r →
      r.estimatedTime = (r.position : ℚ) * averageDuration hist ∧
      (r.position = 0 → r.estimatedTime = 0)) ∧
    averageDuration [] = 5 ∧
    (∀ hist : List ℚ, hist ≠ [] →
      averageDuration hist = hist.sum / (hist.length : ℚ)) ∧
    (∀ ds : List ℚ, runEstimator ds = ds.drop (ds.length - 10) ∧
      (runEstimator ds).length ≤ 10) := by
  refine ⟨?_, rfl, ?_, fun ds => ⟨runEstimator_eq ds, runEstimator_len ds⟩⟩
  · intro s hist cid r h
    unfold getStatusFull at h
    rcases hl : lookupStore s.store cid with _ | req
    · rw [hl] at h; exact absurd h (by simp)
    · rw [hl] at h
      simp only [Option.some.injEq] at h
      subst h
      refine ⟨rfl, ?_⟩
      intro h0
      simp only at h0
      show estimate (position s cid) hist = 0
      rw [show position s cid = 0 from h0]
      simp [estimate]
  · intro hist hne
    rw [averageDuration, if_neg (by simpa [List.length_eq_zero] using hne)]

/-- Witness for `C3_estimator`: the two-pending-requests state with empty
history; request 1 sits at position 2 and its estimate is
`2 * averageDuration []`. -/
theorem C3_estimator_witness :
    getStatusFull sTwoPending [] 1 = some respTwoPending ∧
    respTwoPending.estimatedTime = (respTwoPending.position : ℚ) * averageDuration [] ∧
    (respTwoPending.position = 0 → respTwoPending.estimatedTime = 0) := by
  have h := C3_estimator.1 sTwoPending [] 1 respTwoPending rfl
  exact ⟨rfl, h.1, h.2⟩

/-- C9: the `restore_purchase` endpoint.  With the core API uninitialized
it answers 500 and enqueues nothing; with a missing or empty username it
answers 400 and enqueues nothing; otherwise it enqueues exactly one request
and answers success with `client_id`, `position`, `total_queue` and
`estimated_time` taken from the just-enqueued request's status. -/
theorem C9_restore_endpoint :
    (∀ body hist s, restore_purchase false body hist s = (.serverError, s)) ∧
    (∀ hist s, restore_purchase true none hist s = (.badRequest, s)) ∧
    (∀ hist s, restore_purchase true (some "") hist s = (.badRequest, s)) ∧
    (∀ u hist s, u ≠ "" →
      restore_purchase true (some u) hist s =
        (.ok s.nextId (position (step s (.submit u "")) s.nextId)
          (totalQueueDepth (step s (.submit u "")) s.nextId)
          (estimate (position (step s (.submit u "")) s.nextId) hist),
         step s (.submit u "")) ∧
      (step s (.submit u "")).queue = s.queue ++ [s.nextId]) := by
  refine ⟨fun body hist s => rfl, fun hist s => rfl, fun hist s => rfl, ?_⟩
  intro u hist s hu
  refine ⟨?_, rfl⟩
  unfold restore_purchase
  rw [if_neg (by simp)]
  simp only
  rw [if_neg hu]
  have hl : getStatusFull (step s (.submit u "")) hist s.nextId =
      some ⟨Status.waiting, position (step s (.submit u "")) s.nextId,
        totalQueueDepth (step s (.submit u "")) s.nextId,
        estimate (position (step s (.submit u "")) s.nextId) hist⟩ := by
    unfold getStatusFull
    have : lookupStore (step s (.submit u "")).store s.nextId =
        some ⟨u, "", Status.waiting⟩ := by
      show lookupStore ((s.nextId, ⟨u, "", Status.waiting⟩) :: s.store) s.nextId = _
      simp [lookupStore]
    rw [this]
  rw [hl]

/-- Witness for `C9_restore_endpoint`: submitting "alice" on the empty
initial state with an initialized core yields client id 0, position 1,
total queue 1 and estimate `1 * averageDuration []`. -/
theorem C9_restore_endpoint_witness :
    ("alice" : String) ≠ "" ∧
    restore_purchase true (some "alice") [] initState =
      (.ok 0 1 1 (estimate 1 []), run [.submit "alice" ""]) := by
  have h := C9_restore_endpoint.2.2.2 "alice" [] initState (by decide)
  refine ⟨by decide, ?_⟩
  rw [h.1]
  rfl
